import Mathlib

/-!
Verification of the scenario-evaluation core of the multiple-ai-agents
repository: the synthetic sensor data generator
(`src/scenarios/data_generator.py`), the metrics collector
(`src/scenarios/metrics_collector.py`) and the three scenario engines
(`src/scenarios/scenario_1_normal.py`, `scenario_2_failover.py`,
`scenario_3_loadbalance.py`).

Modelling conventions used throughout:
- Python floats are modelled as rationals (ℚ); the integer range bounds of the
  location profiles are kept as ℤ so that integrality of the clamp envelope is
  visible to the proofs.
- Every call to `random.uniform` / `random.random` / `random.choice`, every
  transcendental term (the `math.sin` diurnal cycles), and every
  network-response outcome is an explicit input of the modelled function, so
  that each function is a pure function of its random draws and its
  environment.  No range constraint is imposed on these inputs unless the
  source imposes one.
- Python dicts (`defaultdict` included) are modelled as insertion-ordered
  association lists with the same read-default and update behaviour.
-/

namespace MultiAgents

/-! ## Synthetic data generator (`src/scenarios/data_generator.py`) -/

/-- One entry of `SensorDataGenerator.location_profiles` (lines 12-34).
The range endpoints are Python integer literals, kept as ℤ here. -/
structure Profile where
  temp_lo : ℤ
  temp_hi : ℤ
  hum_lo : ℤ
  hum_hi : ℤ
  press_lo : ℤ
  press_hi : ℤ
  aq_lo : ℤ
  aq_hi : ℤ
  activity_tag : String
deriving DecidableEq

/-- The 'office' profile (lines 13-19). -/
def officeProfile : Profile :=
  ⟨20, 26, 30, 60, 1010, 1020, 50, 200, "business_hours"⟩

/-- The 'kitchen' profile (lines 20-26). -/
def kitchenProfile : Profile :=
  ⟨18, 35, 40, 80, 1008, 1018, 80, 400, "meal_times"⟩

/-- The 'hallway' profile (lines 27-33). -/
def hallwayProfile : Profile :=
  ⟨19, 24, 35, 55, 1012, 1022, 30, 150, "transit"⟩

/-- `self.location_profiles.get(location, self.location_profiles['office'])`
(line 41): a lookup in the three-key dict, defaulting to the office profile
for every other key. -/
def profileFor (location : String) : Profile :=
  if location = "office" then officeProfile
  else if location = "kitchen" then kitchenProfile
  else if location = "hallway" then hallwayProfile
  else officeProfile

/-- The clamp pattern `max(lo, min(hi, x))` used by all four generators
(lines 82, 101, 115, 136). -/
def clamp (lo hi x : ℚ) : ℚ := max lo (min hi x)

/-- Python `round(x, 2)` (lines 58-61), modelled as rounding to the nearest
hundredth. -/
def round2 (x : ℚ) : ℚ := ((round (100 * x) : ℤ) : ℚ) / 100

/-- `_generate_temperature` (lines 66-82): midpoint of the profile range plus
the diurnal sine term (`daily`), the activity-pattern draw (`act`) and the
uniform(-0.5, 0.5) noise draw (`noise`); the sum is clamped to
[temp_min - 2, temp_max + 2]. -/
def generate_temperature (p : Profile) (daily act noise : ℚ) : ℚ :=
  clamp ((p.temp_lo : ℚ) - 2) ((p.temp_hi : ℚ) + 2)
    (((p.temp_lo : ℚ) + (p.temp_hi : ℚ)) / 2 + daily + act + noise)

/-- `_generate_humidity` (lines 84-101): midpoint plus the (negated) diurnal
term, the activity draw and the uniform(-2, 2) noise, clamped to
[hum_min - 5, hum_max + 5]. -/
def generate_humidity (p : Profile) (daily act noise : ℚ) : ℚ :=
  clamp ((p.hum_lo : ℚ) - 5) ((p.hum_hi : ℚ) + 5)
    (((p.hum_lo : ℚ) + (p.hum_hi : ℚ)) / 2 + daily + act + noise)

/-- `_generate_pressure` (lines 103-115): midpoint plus the weather-cycle sine
term and the uniform(-1, 1) noise, clamped to [press_min - 5, press_max + 5]. -/
def generate_pressure (p : Profile) (weather noise : ℚ) : ℚ :=
  clamp ((p.press_lo : ℚ) - 5) ((p.press_hi : ℚ) + 5)
    (((p.press_lo : ℚ) + (p.press_hi : ℚ)) / 2 + weather + noise)

/-- `_generate_air_quality` (lines 117-136): midpoint plus the activity draw,
the ventilation effect (0, or a uniform(-20, -5) draw with probability 0.1)
and the uniform(-10, 10) noise, clamped to [aq_min - 20, aq_max + 50]. -/
def generate_air_quality (p : Profile) (act vent noise : ℚ) : ℚ :=
  clamp ((p.aq_lo : ℚ) - 20) ((p.aq_hi : ℚ) + 50)
    (((p.aq_lo : ℚ) + (p.aq_hi : ℚ)) / 2 + act + vent + noise)

/-- The `random.choice(['sensor_drift', 'environmental_event',
'equipment_malfunction'])` outcome of `_inject_anomaly` (lines 197-199). -/
inductive AnomalyKind where
  | sensor_drift
  | environmental_event
  | equipment_malfunction
deriving DecidableEq

/-- The random draws consumed by `_inject_anomaly` (lines 195-229):
`drift` is the uniform(0.5, 3.0) drift; `ev1`/`ev2`/`ev3` are the
environmental-event deltas (their ranges depend on the location branch);
`coin_temp`/`coin_aq` are the two `random.random() < 0.5` coins of the
equipment-malfunction branch, and `mal_temp` (uniform(-10, 50)) /
`mal_aq` (uniform(500, 1000)) are the replacement readings. -/
structure AnomalyDraws where
  kind : AnomalyKind
  drift : ℚ
  ev1 : ℚ
  ev2 : ℚ
  ev3 : ℚ
  coin_temp : Bool
  coin_aq : Bool
  mal_temp : ℚ
  mal_aq : ℚ
deriving DecidableEq

/-- `_inject_anomaly(temperature, humidity, air_quality, location)`
(lines 195-229), returning the transformed (temperature, humidity,
air_quality) triple.  Pressure is never passed in and never modified. -/
def inject_anomaly (temperature humidity air_quality : ℚ) (location : String)
    (a : AnomalyDraws) : ℚ × ℚ × ℚ :=
  match a.kind with
  | .sensor_drift =>
      (temperature + a.drift, humidity + a.drift * 2, air_quality)
  | .environmental_event =>
      if location = "kitchen" then
        (temperature + a.ev1, humidity + a.ev2, air_quality + a.ev3)
      else if location = "office" then
        (temperature + a.ev1, humidity, air_quality + a.ev2)
      else
        (temperature + a.ev1, humidity + a.ev2, air_quality)
  | .equipment_malfunction =>
      ((if a.coin_temp then a.mal_temp else temperature), humidity,
        (if a.coin_aq then a.mal_aq else air_quality))

/-- All stochastic / transcendental inputs consumed by one
`generate_sensor_data` call: per-field sine terms, activity draws and noise
draws, the `random.random() < 0.05` anomaly coin (line 50) with its draws,
and the battery / signal draws (lines 62-63). -/
structure GenDraws where
  temp_daily : ℚ
  temp_act : ℚ
  temp_noise : ℚ
  hum_daily : ℚ
  hum_act : ℚ
  hum_noise : ℚ
  press_weather : ℚ
  press_noise : ℚ
  aq_act : ℚ
  aq_vent : ℚ
  aq_noise : ℚ
  anomaly_applied : Bool
  anomaly : AnomalyDraws
  battery : ℚ
  signal : ℚ
deriving DecidableEq

/-- The dict returned by `generate_sensor_data` (lines 55-64). -/
structure Reading where
  location : String
  timestamp : ℚ
  temperature : ℚ
  humidity : ℚ
  pressure : ℚ
  air_quality : ℚ
  battery_level : ℚ
  signal_strength : ℚ
deriving DecidableEq

/-- The body of `generate_sensor_data` after the profile lookup of line 41
(lines 43-64), parameterised by the profile it selected: generate the four
clamped fields, optionally apply `_inject_anomaly` to (temperature,
humidity, air_quality), and return the reading with each of the four fields
rounded to two decimals and labelled with the caller-supplied location. -/
def generate_with_profile (p : Profile) (location : String) (timestamp : ℚ)
    (g : GenDraws) : Reading :=
  let temperature := generate_temperature p g.temp_daily g.temp_act g.temp_noise
  let humidity := generate_humidity p g.hum_daily g.hum_act g.hum_noise
  let pressure := generate_pressure p g.press_weather g.press_noise
  let air_quality := generate_air_quality p g.aq_act g.aq_vent g.aq_noise
  let tha :=
    if g.anomaly_applied then
      inject_anomaly temperature humidity air_quality location g.anomaly
    else (temperature, humidity, air_quality)
  { location := location
    timestamp := timestamp
    temperature := round2 tha.1
    humidity := round2 tha.2.1
    pressure := round2 pressure
    air_quality := round2 tha.2.2
    battery_level := g.battery
    signal_strength := g.signal }

/-- `SensorDataGenerator.generate_sensor_data(location, timestamp)`
(lines 36-64): look up the profile for the location (defaulting to the
office profile, line 41), then generate the reading from it. -/
def generate_sensor_data (location : String) (timestamp : ℚ) (g : GenDraws) :
    Reading :=
  generate_with_profile (profileFor location) location timestamp g

/-! ## Metrics collector (`src/scenarios/metrics_collector.py`) -/

/-- Read of an (insertion-ordered) Python dict or defaultdict with a default
value: `m[k]` for defaultdict, `m.get(k, d)` otherwise. -/
def lookupD {α : Type} (m : List (String × α)) (k : String) (d : α) : α :=
  match m.find? (fun p => decide (p.1 = k)) with
  | some p => p.2
  | none => d

/-- In-place update of a defaultdict entry (`m[k] = f m[k]` where a missing
key reads as `d`): existing keys keep their position, a new key is appended,
matching Python dict insertion order. -/
def updateD {α : Type} (m : List (String × α)) (k : String) (d : α)
    (f : α → α) : List (String × α) :=
  match m with
  | [] => [(k, f d)]
  | p :: rest =>
      if p.1 = k then (p.1, f p.2) :: rest else p :: updateD rest k d f

/-- One record appended to `task_executions.jsonl` by
`record_task_execution` (lines 102-113); the wall-clock timestamp and the
sampled cpu/memory fields are omitted (they are read from the concurrently
written `current_metrics` snapshot and carry no information for the claims). -/
structure ExecRecord where
  task_type : String
  response_time : ℚ
  success : Bool
  execution_location : String
deriving DecidableEq

/-- The mutable state of a `MetricsCollector` (lines 18-27): the per-key task
counters, per-key response-time lists, per-key error counts, the per-metric
system history series, and the append-only execution log. -/
structure MetricsCollector where
  task_counters : List (String × ℕ)
  response_times : List (String × List ℚ)
  error_counts : List (String × ℕ)
  metrics_history : List (String × List (ℚ × ℚ))
  exec_log : List ExecRecord
deriving DecidableEq

/-- A freshly constructed `MetricsCollector` (lines 14-27): every container
empty. -/
def freshCollector : MetricsCollector := ⟨[], [], [], [], []⟩

/-- `MetricsCollector.record_task_execution(task_type, response_time,
success, location)` (lines 88-113): bump the per-`"{location}_{task_type}"`
attempt counter; on success append the response time to that key's list,
otherwise bump that key's error count; append one record to the log. -/
def record_task_execution (st : MetricsCollector) (task_type : String)
    (response_time : ℚ) (success : Bool) (location : String) :
    MetricsCollector :=
  let counter_key := location ++ "_" ++ task_type
  let st1 :=
    { st with task_counters := updateD st.task_counters counter_key 0 (· + 1) }
  let rt' := updateD st1.response_times counter_key [] (fun l => l ++ [response_time])
  let st2 :=
    if success then
      { st1 with response_times := rt' }
    else
      { st1 with error_counts :=
          updateD st1.error_counts counter_key 0 (· + 1) }
  { st2 with exec_log :=
      st2.exec_log ++ [⟨task_type, response_time, success, location⟩] }

/-- `min(l)` over a nonempty Python list (the callers guard emptiness). -/
def qmin : List ℚ → ℚ
  | [] => 0
  | x :: xs => xs.foldl min x

/-- `max(l)` over a nonempty Python list (the callers guard emptiness). -/
def qmax : List ℚ → ℚ
  | [] => 0
  | x :: xs => xs.foldl max x

/-- One value of `summary['average_response_times']` (lines 139-144). -/
structure RtStats where
  mean : ℚ
  min : ℚ
  max : ℚ
  count : ℕ
deriving DecidableEq

/-- One value of `summary['system_utilization']` (lines 155-167); field order
mean/max/min as in the source dict literal. -/
structure UtilStats where
  mean : ℚ
  max : ℚ
  min : ℚ
deriving DecidableEq

/-- The dict returned by `get_performance_summary` (lines 127-169).
`system_utilization` holds at most a `'cpu'` and a `'memory'` entry, modelled
as the two Option fields. -/
structure Summary where
  task_summary : List (String × ℕ)
  average_response_times : List (String × RtStats)
  error_rates : List (String × ℚ)
  util_cpu : Option UtilStats
  util_memory : Option UtilStats
deriving DecidableEq

/-- `MetricsCollector.get_performance_summary()` (lines 127-169):
`task_summary` is a copy of the counters; `average_response_times` holds
mean/min/max/count for every key whose time list is nonempty; `error_rates`
holds, for every key of `error_counts`,
`error_count / (task_counters[key] + error_count)` whenever that denominator
is positive; `system_utilization` summarises the `'cpu_percent'` and
`'memory_percent'` history series when nonempty. -/
def get_performance_summary (st : MetricsCollector) : Summary :=
  let cpu_vals := (lookupD st.metrics_history "cpu_percent" []).map Prod.snd
  let mem_vals := (lookupD st.metrics_history "memory_percent" []).map Prod.snd
  { task_summary := st.task_counters
    average_response_times :=
      (st.response_times.filter (fun p => !p.2.isEmpty)).map
        (fun p =>
          (p.1, ⟨p.2.sum / (p.2.length : ℚ), qmin p.2, qmax p.2, p.2.length⟩))
    error_rates :=
      (st.error_counts.filter
          (fun p => decide (0 < lookupD st.task_counters p.1 0 + p.2))).map
        (fun p =>
          (p.1, (p.2 : ℚ) / ((lookupD st.task_counters p.1 0 + p.2 : ℕ) : ℚ)))
    util_cpu :=
      if cpu_vals.isEmpty then none
      else some ⟨cpu_vals.sum / (cpu_vals.length : ℚ), qmax cpu_vals,
        qmin cpu_vals⟩
    util_memory :=
      if mem_vals.isEmpty then none
      else some ⟨mem_vals.sum / (mem_vals.length : ℚ), qmax mem_vals,
        qmin mem_vals⟩ }

/-- The per-key history append of `_collect_continuously` (lines 64-70):
append the (timestamp, value) pair, then `popleft()` once if the length
exceeds 1000. -/
def appendSample (h : List (ℚ × ℚ)) (s : ℚ × ℚ) : List (ℚ × ℚ) :=
  let h' := h ++ [s]
  if 1000 < h'.length then h'.tail else h'

/-- The history series of one metric key after a sequence of sampler
iterations, starting from the empty deque of a fresh collector. -/
def historyAfter (samples : List (ℚ × ℚ)) : List (ℚ × ℚ) :=
  samples.foldl appendSample []

/-! ### JSON document model for `export_metrics` (lines 177-194) -/

/-- The fragment of JSON needed for the `metrics_export.json` document. -/
inductive Json where
  | num (q : ℚ)
  | str (s : String)
  | arr (items : List Json)
  | obj (fields : List (String × Json))

/-- Serialize a natural number counter. -/
def encNat (n : ℕ) : Json := .num (n : ℚ)

/-- Parse a JSON number back as a natural number counter. -/
def decNat : Json → Option ℕ
  | .num q => if q.den = 1 ∧ 0 ≤ q.num then some q.num.toNat else none
  | _ => none

/-- Serialize a float. -/
def encQ (q : ℚ) : Json := .num q

/-- Parse a JSON number back as a float. -/
def decQ : Json → Option ℚ
  | .num q => some q
  | _ => none

/-- Serialize one (timestamp, value) history pair (a JSON 2-element array). -/
def encPairQ (p : ℚ × ℚ) : Json := .arr [.num p.1, .num p.2]

/-- Parse one (timestamp, value) history pair. -/
def decPairQ : Json → Option (ℚ × ℚ)
  | .arr [.num a, .num b] => some (a, b)
  | _ => none

/-- Serialize a Python list value-wise. -/
def encList {α : Type} (enc : α → Json) (l : List α) : Json :=
  .arr (l.map enc)

/-- `Option.map`-composition over a list of parses, failing if any element
fails. -/
def optMap {α β : Type} (f : α → Option β) : List α → Option (List β)
  | [] => some []
  | x :: xs =>
      match f x, optMap f xs with
      | some y, some ys => some (y :: ys)
      | _, _ => none

/-- Parse a Python list value-wise. -/
def decList {α : Type} (dec : Json → Option α) : Json → Option (List α)
  | .arr items => optMap dec items
  | _ => none

/-- Serialize a string-keyed dict value-wise, preserving insertion order
(as `json.dump` does). -/
def encObjWith {α : Type} (enc : α → Json) (m : List (String × α)) : Json :=
  .obj (m.map (fun p => (p.1, enc p.2)))

/-- Parse a string-keyed dict value-wise. -/
def decObjWith {α : Type} (dec : Json → Option α) :
    Json → Option (List (String × α))
  | .obj fields => optMap (fun p => (dec p.2).map (fun v => (p.1, v))) fields
  | _ => none

/-- Serialize one `average_response_times` entry (dict literal of
lines 139-144, key order mean/min/max/count). -/
def encRtStats (s : RtStats) : Json :=
  .obj [("mean", .num s.mean), ("min", .num s.min), ("max", .num s.max),
    ("count", encNat s.count)]

/-- Parse one `average_response_times` entry. -/
def decRtStats : Json → Option RtStats
  | .obj [("mean", .num m), ("min", .num lo), ("max", .num hi),
      ("count", c)] =>
      match decNat c with
      | some n => some ⟨m, lo, hi, n⟩
      | none => none
  | _ => none

/-- Serialize one `system_utilization` entry (dict literal of lines 155-159,
key order mean/max/min). -/
def encUtilStats (s : UtilStats) : Json :=
  .obj [("mean", .num s.mean), ("max", .num s.max), ("min", .num s.min)]

/-- Parse one `system_utilization` entry. -/
def decUtilStats : Json → Option UtilStats
  | .obj [("mean", .num m), ("max", .num hi), ("min", .num lo)] =>
      some ⟨m, hi, lo⟩
  | _ => none

/-- Serialize `summary['system_utilization']`: the `'cpu'` key is inserted
first (line 155), the `'memory'` key second (line 163), each only when its
history series was nonempty. -/
def encUtil (s : Summary) : Json :=
  .obj
    ((match s.util_cpu with
      | some u => [("cpu", encUtilStats u)]
      | none => []) ++
     (match s.util_memory with
      | some u => [("memory", encUtilStats u)]
      | none => []))

/-- Parse `summary['system_utilization']` back into the two Option fields. -/
def decUtil : Json → Option (Option UtilStats × Option UtilStats)
  | .obj [] => some (none, none)
  | .obj [("cpu", j)] =>
      match decUtilStats j with
      | some u => some (some u, none)
      | none => none
  | .obj [("memory", j)] =>
      match decUtilStats j with
      | some u => some (none, some u)
      | none => none
  | .obj [("cpu", j1), ("memory", j2)] =>
      match decUtilStats j1, decUtilStats j2 with
      | some u1, some u2 => some (some u1, some u2)
      | _, _ => none
  | _ => none

/-- Serialize a `get_performance_summary` result (the dict built in
lines 129-169, key order as in the source). -/
def encSummary (s : Summary) : Json :=
  .obj [("task_summary", encObjWith encNat s.task_summary),
    ("average_response_times", encObjWith encRtStats s.average_response_times),
    ("error_rates", encObjWith encQ s.error_rates),
    ("system_utilization", encUtil s)]

/-- Parse a serialized performance summary. -/
def decSummary : Json → Option Summary
  | .obj [("task_summary", tj), ("average_response_times", aj),
      ("error_rates", ej), ("system_utilization", uj)] =>
      match decObjWith decNat tj, decObjWith decRtStats aj,
          decObjWith decQ ej, decUtil uj with
      | some t, some a, some e, some u => some ⟨t, a, e, u.1, u.2⟩
      | _, _, _, _ => none
  | _ => none

/-- `MetricsCollector.export_metrics()` (lines 177-194): the JSON document
written to `metrics_export.json`, with the six keys in the source's dict
order; `performance_summary` is computed by the embedded
`get_performance_summary()` call on the same state. -/
def export_metrics (export_timestamp : String) (st : MetricsCollector) :
    Json :=
  .obj [("export_timestamp", .str export_timestamp),
    ("task_counters", encObjWith encNat st.task_counters),
    ("response_times", encObjWith (encList encQ) st.response_times),
    ("error_counts", encObjWith encNat st.error_counts),
    ("system_metrics_history", encObjWith (encList encPairQ)
      st.metrics_history),
    ("performance_summary", encSummary (get_performance_summary st))]

/-- The claim-relevant contents parsed back out of a `metrics_export.json`
document. -/
structure ExportDoc where
  task_counters : List (String × ℕ)
  response_times : List (String × List ℚ)
  error_counts : List (String × ℕ)
  performance_summary : Summary

/-- Parse the claim-relevant parts of an exported document. -/
def decodeExport : Json → Option ExportDoc
  | .obj [("export_timestamp", _), ("task_counters", tj),
      ("response_times", rj), ("error_counts", ej),
      ("system_metrics_history", _), ("performance_summary", pj)] =>
      match decObjWith decNat tj, decObjWith (decList decQ) rj,
          decObjWith decNat ej, decSummary pj with
      | some t, some r, some e, some p => some ⟨t, r, e, p⟩
      | _, _, _, _ => none
  | _ => none

/-! ## Scenario 1: normal operation (`src/scenarios/scenario_1_normal.py`) -/

/-- The task fields `_calculate_accuracy` reads (lines 174-189). -/
structure S1Task where
  location : String
  priority : String
deriving DecidableEq

/-- Outcome of one `requests.post` call: an HTTP response with a status code,
or a raised exception (timeout, connection error, ...). -/
inductive HttpAttempt where
  | ok (status : ℕ)
  | exn
deriving DecidableEq

/-- The environment and random draws of one dispatch iteration of
`NormalOperationScenario.run` (lines 63-93): the generated task, the HTTP
outcome of `_execute_task`'s post (line 111), the measured elapsed
milliseconds, the uniform(-10, 10) accuracy noise, and whether
`future.result(timeout=30)` returned at all (it raises only when the worker
has not finished within 30 s, since `_execute_task` never raises). -/
structure S1Dispatch where
  task : S1Task
  http : HttpAttempt
  rt_ms : ℚ
  acc_noise : ℚ
  resolved : Bool
deriving DecidableEq

/-- `_calculate_accuracy(task, result)` (lines 174-189): base 85, +5 when the
task location is one of the three configured locations, a priority bonus of
0/2/5 (default 0), plus the uniform(-10, 10) draw, clamped to [0, 100]. -/
def calculate_accuracy (t : S1Task) (noise : ℚ) : ℚ :=
  let base : ℚ := 85
  let base :=
    if t.location = "office" ∨ t.location = "kitchen" ∨ t.location = "hallway"
    then base + 5 else base
  let bonus : ℚ :=
    if t.priority = "low" then 0
    else if t.priority = "medium" then 2
    else if t.priority = "high" then 5
    else 0
  clamp 0 100 (base + bonus + noise)

/-- The dict returned by `_execute_task` (lines 105-135). -/
structure Outcome where
  response_time : ℚ
  accuracy : ℚ
  success : Bool
deriving DecidableEq

/-- `NormalOperationScenario._execute_task(task)` (lines 105-135): on an HTTP
200 response return the measured response time with the computed accuracy;
on any non-200 status an exception is raised internally (line 127) and, like
any network exception, caught (lines 129-135), yielding a zero-accuracy
failure outcome.  The function itself never propagates an exception. -/
def execute_task (d : S1Dispatch) : Outcome :=
  match d.http with
  | .ok status =>
      if status = 200 then ⟨d.rt_ms, calculate_accuracy d.task d.acc_noise, true⟩
      else ⟨d.rt_ms, 0, false⟩
  | .exn => ⟨d.rt_ms, 0, false⟩

/-- The claim-relevant fields of the Scenario 1 results dict (lines 33-43). -/
structure S1Results where
  tasks_completed : ℕ
  tasks_failed : ℕ
  response_times : List ℚ
  accuracy_scores : List ℚ
deriving DecidableEq

/-- One iteration of the dispatch loop of `NormalOperationScenario.run`
(lines 63-93): when `future.result(timeout=30)` returns (the worker finished
in time), `tasks_completed` is incremented and the outcome's response time
and accuracy are appended — whatever the outcome's `success` flag; when it
raises, `tasks_failed` is incremented and nothing is appended.  Either way
the loop continues with the next task. -/
def s1_step (r : S1Results) (d : S1Dispatch) : S1Results :=
  if d.resolved then
    let o := execute_task d
    { r with tasks_completed := r.tasks_completed + 1
             response_times := r.response_times ++ [o.response_time]
             accuracy_scores := r.accuracy_scores ++ [o.accuracy] }
  else
    { r with tasks_failed := r.tasks_failed + 1 }

/-- The dispatch loop of `NormalOperationScenario.run` over the sequence of
dispatch iterations performed before the duration elapses. -/
def s1_run (ds : List S1Dispatch) : S1Results :=
  ds.foldl s1_step ⟨0, 0, [], []⟩

/-! ## Scenario 2: failover (`src/scenarios/scenario_2_failover.py`) -/

/-- The results dict of `_run_normal_phase` / `_run_rpi_leader_phase`
(lines 93-97, 209-213). -/
structure S2Phase where
  tasks_completed : ℕ
  response_times : List ℚ
  accuracy_scores : List ℚ
deriving DecidableEq

/-- The results dict of `FailoverScenario.run` (lines 29-42). -/
structure S2Results where
  phase_1_duration : ℚ
  failure_detection_time : ℚ
  leader_election_time : ℚ
  phase_2_duration : ℚ
  tasks_before_failure : ℕ
  tasks_after_recovery : ℕ
  downtime : ℚ
  response_times_before : List ℚ
  response_times_after : List ℚ
  accuracy_before : List ℚ
  accuracy_after : List ℚ
  performance_degradation : ℚ
  recovery_success_rate : ℚ
deriving DecidableEq

/-- The environment of one `FailoverScenario.run(duration)` call: the phase-1
results, the measured detection and election times, the remaining wall-clock
time computed at line 73, and the phase results `_run_rpi_leader_phase`
would produce if invoked. -/
structure S2Env where
  duration : ℚ
  phase1 : S2Phase
  detection_time : ℚ
  election_time : ℚ
  remaining_time : ℚ
  phase3 : S2Phase
deriving DecidableEq

/-- `FailoverScenario.run(duration)` (lines 25-89): record phase 1, the
detection/election times and the downtime; run phase 3 and fill
`phase_2_duration` / `tasks_after_recovery` / `response_times_after` /
`accuracy_after` only when `remaining_time > 30` (line 76), leaving the
zero/empty initial values otherwise; finally compute
`performance_degradation` (lines 268-277) and `recovery_success_rate`
(line 85). -/
def failover_run (i : S2Env) : S2Results :=
  let base : S2Results :=
    { phase_1_duration := i.duration * 3 / 10
      failure_detection_time := i.detection_time
      leader_election_time := i.election_time
      phase_2_duration := 0
      tasks_before_failure := i.phase1.tasks_completed
      tasks_after_recovery := 0
      downtime := i.detection_time + i.election_time
      response_times_before := i.phase1.response_times
      response_times_after := []
      accuracy_before := i.phase1.accuracy_scores
      accuracy_after := []
      performance_degradation := 0
      recovery_success_rate := 0 }
  let r :=
    if 30 < i.remaining_time then
      { base with phase_2_duration := i.remaining_time
                  tasks_after_recovery := i.phase3.tasks_completed
                  response_times_after := i.phase3.response_times
                  accuracy_after := i.phase3.accuracy_scores }
    else base
  let degradation : ℚ :=
    if r.response_times_before = [] ∨ r.response_times_after = [] then 0
    else
      let avg_b := r.response_times_before.sum / (r.response_times_before.length : ℚ)
      let avg_a := r.response_times_after.sum / (r.response_times_after.length : ℚ)
      max 0 ((avg_a - avg_b) / avg_b * 100)
  { r with performance_degradation := degradation
           recovery_success_rate :=
             (r.response_times_after.length : ℚ) /
               ((max 1 r.response_times_before.length : ℕ) : ℚ) }

/-! ## Scenario 3: load balancing (`src/scenarios/scenario_3_loadbalance.py`) -/

/-- `self.rpi_endpoints` (lines 21-25), in its configured insertion order. -/
def rpi_endpoints : List (String × String) :=
  [("office", "http://192.168.1.101:8000"),
   ("kitchen", "http://192.168.1.102:8000"),
   ("hallway", "http://192.168.1.103:8000")]

/-- Outcome of one `requests.post` to a peer: a response with a status code,
or a raised exception. -/
inductive PeerResp where
  | ok (status : ℕ)
  | exn
deriving DecidableEq

/-- `response.status_code == 200` on a non-raising attempt, false on a raised
exception. -/
def isOk200 : PeerResp → Bool
  | .ok s => s == 200
  | .exn => false

/-- The environment and random draws of one dispatch iteration of
`_run_load_phase` (lines 127-161): the CPU sample taken right before the
dispatch (line 132), the task's location, the per-endpoint outcome of a post
to each peer, the outcome of a post to the supervisor, the uniform(78, 88) /
uniform(85, 95) accuracy draws, the measured elapsed milliseconds, and
whether `future.result(timeout=30)` returned (neither `_execute_on_rpi` nor
`_execute_on_supervisor` ever raises, so it raises only on the 30 s future
timeout). -/
structure S3Dispatch where
  cpu : ℚ
  task_location : String
  peer : String → PeerResp
  sup_http : PeerResp
  rpi_acc : ℚ
  sup_acc : ℚ
  rt_ms : ℚ
  resolved : Bool

/-- The dict returned by `_execute_on_rpi` / `_execute_on_supervisor`. -/
structure S3Outcome where
  response_time : ℚ
  accuracy : ℚ
  on_rpi : Bool
  ok : Bool
deriving DecidableEq

/-- `endpoints_to_try` (lines 229-233): the task's home-location endpoint
first (`self.rpi_endpoints.get(target_location)`, which is `none` for an
unknown location — posting to it then raises and is skipped), followed by
every other configured endpoint in dict iteration order. -/
def endpointsToTry (task_location : String) : List (Option String) :=
  let target :=
    (rpi_endpoints.find? (fun p => decide (p.1 = task_location))).map (·.2)
  target ::
    ((rpi_endpoints.map (·.2)).filter (fun e => decide (some e ≠ target))).map
      some

/-- The `for endpoint in endpoints_to_try` loop of `_execute_on_rpi`
(lines 235-263): post to each endpoint in turn; a raised exception (also for
the `none` pseudo-endpoint) or a non-200 status moves on to the next
endpoint; the first 200 response returns a success outcome; if all endpoints
are exhausted the all-unavailable failure outcome is returned. -/
def tryEndpoints (resp : String → PeerResp) (rt acc : ℚ) :
    List (Option String) → S3Outcome
  | [] => ⟨rt, 0, true, false⟩
  | none :: rest => tryEndpoints resp rt acc rest
  | some e :: rest =>
      if isOk200 (resp e) then ⟨rt, acc, true, true⟩
      else tryEndpoints resp rt acc rest

/-- `LoadBalancingScenario._execute_on_rpi(task)` (lines 224-263). -/
def execute_on_rpi (d : S3Dispatch) : S3Outcome :=
  tryEndpoints d.peer d.rt_ms d.rpi_acc (endpointsToTry d.task_location)

/-- `LoadBalancingScenario._execute_on_supervisor(task)` (lines 192-222):
200 yields a success outcome with the uniform(85, 95) accuracy; any other
status or exception yields the zero-accuracy failure outcome. -/
def execute_on_supervisor (d : S3Dispatch) : S3Outcome :=
  if isOk200 d.sup_http then ⟨d.rt_ms, d.sup_acc, false, true⟩
  else ⟨d.rt_ms, 0, false, false⟩

/-- The results dict of `_run_load_phase` (lines 114-121), extended with the
ghost field `offload_log` recording, per dispatch in order, the branch taken
at line 136 (the loop's `target` variable: `true` = offloaded to an RPi). -/
structure PhaseResults where
  supervisor_tasks : ℕ
  rpi_tasks : ℕ
  load_shedding_events : ℕ
  response_times : List ℚ
  cpu_usage : List ℚ
  accuracy_scores : List ℚ
  offload_log : List Bool
deriving DecidableEq

/-- The outcome the submitted worker computes for one dispatch: `_execute_on_rpi`
when offloaded, `_execute_on_supervisor` otherwise. -/
def s3_outcome (d : S3Dispatch) : S3Outcome :=
  if 70 < d.cpu then execute_on_rpi d else execute_on_supervisor d

/-- One iteration of `_run_load_phase`'s loop (lines 127-161): append the CPU
sample; if it strictly exceeds the threshold 70, submit to an RPi and count
one load-shedding event, else submit to the supervisor; then, when
`future.result(timeout=30)` returns, append the outcome's response time and
accuracy and count the task for its execution side; a future timeout only
prints and counts nothing. -/
def s3_phase_step (r : PhaseResults) (d : S3Dispatch) : PhaseResults :=
  let offload := decide (70 < d.cpu)
  let r1 := { r with cpu_usage := r.cpu_usage ++ [d.cpu] }
  let r2 :=
    if offload then
      { r1 with load_shedding_events := r1.load_shedding_events + 1 }
    else r1
  let o := s3_outcome d
  let r3 := { r2 with offload_log := r2.offload_log ++ [offload] }
  if d.resolved then
    let r4 :=
      { r3 with response_times := r3.response_times ++ [o.response_time]
                accuracy_scores := r3.accuracy_scores ++ [o.accuracy] }
    if offload then { r4 with rpi_tasks := r4.rpi_tasks + 1 }
    else { r4 with supervisor_tasks := r4.supervisor_tasks + 1 }
  else r3

/-- `_run_load_phase` (lines 112-163) over the sequence of dispatch
iterations performed before the phase duration elapses. -/
def run_load_phase (ds : List S3Dispatch) : PhaseResults :=
  ds.foldl s3_phase_step ⟨0, 0, 0, [], [], [], []⟩

/-- The overall counters of `LoadBalancingScenario.run` (lines 32-44)
accumulated across phases (lines 89-92). -/
structure S3Totals where
  tasks_on_supervisor : ℕ
  tasks_on_rpis : ℕ
  load_shedding_events : ℕ
deriving DecidableEq

/-- The per-phase counter accumulation of `LoadBalancingScenario.run`
(lines 89-92). -/
def s3_acc_step (t : S3Totals) (ds : List S3Dispatch) : S3Totals :=
  let p := run_load_phase ds
  ⟨t.tasks_on_supervisor + p.supervisor_tasks,
   t.tasks_on_rpis + p.rpi_tasks,
   t.load_shedding_events + p.load_shedding_events⟩

/-- The phase loop of `LoadBalancingScenario.run` (lines 68-92): run each
phase and add its `supervisor_tasks` / `rpi_tasks` / `load_shedding_events`
into the overall counters. -/
def s3_run (phases : List (List S3Dispatch)) : S3Totals :=
  phases.foldl s3_acc_step ⟨0, 0, 0⟩

/-! ## Concrete inputs used by witnesses and counterexamples -/

/-- A draw bundle in which the 5% anomaly coin came up false. -/
def gOk : GenDraws :=
  { temp_daily := 1, temp_act := 1/2, temp_noise := 1/4
    hum_daily := -1, hum_act := 2, hum_noise := 1
    press_weather := 2, press_noise := 1/2
    aq_act := 5, aq_vent := 0, aq_noise := 3
    anomaly_applied := false
    anomaly := ⟨.sensor_drift, 1, 0, 0, 0, false, false, 0, 0⟩
    battery := 92, signal := -45 }

/-- A draw bundle in which the anomaly coin came up true, the anomaly kind is
equipment_malfunction, the temperature coin came up true, and the
uniform(-10, 50) replacement draw was 49. -/
def gMalfunction : GenDraws :=
  { gOk with
    anomaly_applied := true
    anomaly := ⟨.equipment_malfunction, 0, 0, 0, 0, true, false, 49, 0⟩ }

/-- A scenario-1 dispatch whose HTTP call returned status 500 and whose
future resolved within the 30 s limit. -/
def d500 : S1Dispatch := ⟨⟨"office", "high"⟩, .ok 500, 12, 0, true⟩

/-- A failover environment in which 20 s remain after phase 2. -/
def s2ex : S2Env := ⟨300, ⟨5, [10], [90]⟩, 10, 5, 20, ⟨7, [20], [80]⟩⟩

/-- The collector state after exactly one failed task execution. -/
def c3_state : MetricsCollector :=
  record_task_execution freshCollector "analysis" 1 false "supervisor"

/-! ## Helper lemmas -/

theorem clamp_mem (lo hi x : ℚ) (h : lo ≤ hi) :
    lo ≤ clamp lo hi x ∧ clamp lo hi x ≤ hi := by
  unfold clamp
  exact ⟨le_max_left _ _, max_le h (min_le_left _ _)⟩

theorem round_mono_q (y z : ℚ) (h : y ≤ z) : round y ≤ round z := by
  rw [round_eq, round_eq]
  exact Int.floor_le_floor (by linarith)

theorem round2_int_bounds (a b : ℤ) (x : ℚ) (h1 : (a : ℚ) ≤ x)
    (h2 : x ≤ (b : ℚ)) : (a : ℚ) ≤ round2 x ∧ round2 x ≤ (b : ℚ) := by
  have hlo : (100 * a : ℤ) ≤ round (100 * x) := by
    have h := round_mono_q ((100 * a : ℤ) : ℚ) (100 * x) (by push_cast; linarith)
    rwa [round_intCast] at h
  have hhi : round (100 * x) ≤ (100 * b : ℤ) := by
    have h := round_mono_q (100 * x) ((100 * b : ℤ) : ℚ) (by push_cast; linarith)
    rwa [round_intCast] at h
  unfold round2
  constructor
  · rw [le_div_iff₀ (by norm_num : (0 : ℚ) < 100)]
    have : ((100 * a : ℤ) : ℚ) ≤ ((round (100 * x) : ℤ) : ℚ) := by exact_mod_cast hlo
    push_cast at this ⊢
    linarith
  · rw [div_le_iff₀ (by norm_num : (0 : ℚ) < 100)]
    have : ((round (100 * x) : ℤ) : ℚ) ≤ ((100 * b : ℤ) : ℚ) := by exact_mod_cast hhi
    push_cast at this ⊢
    linarith

theorem round2_clamp_int (a b : ℤ) (x : ℚ) (h : a ≤ b) :
    (a : ℚ) ≤ round2 (clamp (a : ℚ) (b : ℚ) x) ∧
    round2 (clamp (a : ℚ) (b : ℚ) x) ≤ (b : ℚ) := by
  have hq : (a : ℚ) ≤ (b : ℚ) := by exact_mod_cast h
  have hc := clamp_mem (a : ℚ) (b : ℚ) x hq
  exact round2_int_bounds a b _ hc.1 hc.2

theorem profileFor_cases (location : String) :
    profileFor location = officeProfile ∨
    profileFor location = kitchenProfile ∨
    profileFor location = hallwayProfile := by
  unfold profileFor
  split
  · exact Or.inl rfl
  split
  · exact Or.inr (Or.inl rfl)
  split
  · exact Or.inr (Or.inr rfl)
  exact Or.inl rfl

theorem profileFor_ranges (location : String) :
    (profileFor location).temp_lo ≤ (profileFor location).temp_hi ∧
    (profileFor location).hum_lo ≤ (profileFor location).hum_hi ∧
    (profileFor location).press_lo ≤ (profileFor location).press_hi ∧
    (profileFor location).aq_lo ≤ (profileFor location).aq_hi := by
  rcases profileFor_cases location with h | h | h <;> rw [h] <;> decide

theorem generate_with_profile_fields (p : Profile) (location : String)
    (timestamp : ℚ) (g : GenDraws) (h : g.anomaly_applied = false) :
    (generate_with_profile p location timestamp g).temperature =
      round2 (generate_temperature p g.temp_daily g.temp_act g.temp_noise) ∧
    (generate_with_profile p location timestamp g).humidity =
      round2 (generate_humidity p g.hum_daily g.hum_act g.hum_noise) ∧
    (generate_with_profile p location timestamp g).pressure =
      round2 (generate_pressure p g.press_weather g.press_noise) ∧
    (generate_with_profile p location timestamp g).air_quality =
      round2 (generate_air_quality p g.aq_act g.aq_vent g.aq_noise) := by
  simp [generate_with_profile, h]

/-! ## Claim theorems -/

/-- C1 (amended, part 1 of the correction): for every location, timestamp and
draw bundle in which no anomaly transform was applied, each of the four
profile-governed fields of the returned reading lies inside the selected
profile's envelope [profile_min − slack, profile_max + slack] with the
per-field slacks 2 (temperature), 5 (humidity), 5 (pressure) and −20/+50
(air quality). -/
theorem c1_envelope_no_anomaly (location : String) (timestamp : ℚ)
    (g : GenDraws) (h : g.anomaly_applied = false) :
    (((profileFor location).temp_lo : ℚ) - 2 ≤
        (generate_sensor_data location timestamp g).temperature ∧
      (generate_sensor_data location timestamp g).temperature ≤
        ((profileFor location).temp_hi : ℚ) + 2) ∧
    (((profileFor location).hum_lo : ℚ) - 5 ≤
        (generate_sensor_data location timestamp g).humidity ∧
      (generate_sensor_data location timestamp g).humidity ≤
        ((profileFor location).hum_hi : ℚ) + 5) ∧
    (((profileFor location).press_lo : ℚ) - 5 ≤
        (generate_sensor_data location timestamp g).pressure ∧
      (generate_sensor_data location timestamp g).pressure ≤
        ((profileFor location).press_hi : ℚ) + 5) ∧
    (((profileFor location).aq_lo : ℚ) - 20 ≤
        (generate_sensor_data location timestamp g).air_quality ∧
      (generate_sensor_data location timestamp g).air_quality ≤
        ((profileFor location).aq_hi : ℚ) + 50) := by
  obtain ⟨ht, hh, hp, ha⟩ := profileFor_ranges location
  obtain ⟨e1, e2, e3, e4⟩ :=
    generate_with_profile_fields (profileFor location) location timestamp g h
  rw [generate_sensor_data] at *
  refine ⟨?_, ?_, ?_, ?_⟩
  · rw [e1]
    unfold generate_temperature
    have hb := round2_clamp_int ((profileFor location).temp_lo - 2)
      ((profileFor location).temp_hi + 2)
      ((((profileFor location).temp_lo : ℚ) + ((profileFor location).temp_hi : ℚ)) / 2 +
        g.temp_daily + g.temp_act + g.temp_noise) (by omega)
    push_cast at hb
    exact hb
  · rw [e2]
    unfold generate_humidity
    have hb := round2_clamp_int ((profileFor location).hum_lo - 5)
      ((profileFor location).hum_hi + 5)
      ((((profileFor location).hum_lo : ℚ) + ((profileFor location).hum_hi : ℚ)) / 2 +
        g.hum_daily + g.hum_act + g.hum_noise) (by omega)
    push_cast at hb
    exact hb
  · rw [e3]
    unfold generate_pressure
    have hb := round2_clamp_int ((profileFor location).press_lo - 5)
      ((profileFor location).press_hi + 5)
      ((((profileFor location).press_lo : ℚ) + ((profileFor location).press_hi : ℚ)) / 2 +
        g.press_weather + g.press_noise) (by omega)
    push_cast at hb
    exact hb
  · rw [e4]
    unfold generate_air_quality
    have hb := round2_clamp_int ((profileFor location).aq_lo - 20)
      ((profileFor location).aq_hi + 50)
      ((((profileFor location).aq_lo : ℚ) + ((profileFor location).aq_hi : ℚ)) / 2 +
        g.aq_act + g.aq_vent + g.aq_noise) (by omega)
    push_cast at hb
    exact hb

/-- Witness for C1 (amended) at location "office", timestamp 0 and the
no-anomaly draw bundle `gOk`. -/
theorem c1_envelope_no_anomaly_witness :
    gOk.anomaly_applied = false ∧
    ((((profileFor "office").temp_lo : ℚ) - 2 ≤
        (generate_sensor_data "office" 0 gOk).temperature ∧
      (generate_sensor_data "office" 0 gOk).temperature ≤
        ((profileFor "office").temp_hi : ℚ) + 2) ∧
    (((profileFor "office").hum_lo : ℚ) - 5 ≤
        (generate_sensor_data "office" 0 gOk).humidity ∧
      (generate_sensor_data "office" 0 gOk).humidity ≤
        ((profileFor "office").hum_hi : ℚ) + 5) ∧
    (((profileFor "office").press_lo : ℚ) - 5 ≤
        (generate_sensor_data "office" 0 gOk).pressure ∧
      (generate_sensor_data "office" 0 gOk).pressure ≤
        ((profileFor "office").press_hi : ℚ) + 5) ∧
    (((profileFor "office").aq_lo : ℚ) - 20 ≤
        (generate_sensor_data "office" 0 gOk).air_quality ∧
      (generate_sensor_data "office" 0 gOk).air_quality ≤
        ((profileFor "office").aq_hi : ℚ) + 50)) :=
  ⟨rfl, c1_envelope_no_anomaly "office" 0 gOk rfl⟩

/-- C1 counterexample: with the (reachable) draw bundle `gMalfunction` —
anomaly coin true, equipment-malfunction kind, temperature coin true,
replacement draw 49 — the reading generated for "office" has temperature 49,
outside the office envelope whose upper edge is temp_max + 2 = 28.  The
anomaly transform is applied after the clamp (data_generator.py lines 44-53),
so the claim's "including readings in which an anomaly transform was
applied" is false. -/
theorem c1_counterexample :
    (generate_sensor_data "office" 0 gMalfunction).temperature = 49 ∧
    ((profileFor "office").temp_hi : ℚ) + 2 = 28 ∧
    ¬ ((generate_sensor_data "office" 0 gMalfunction).temperature ≤
        ((profileFor "office").temp_hi : ℚ) + 2) := by
  have e : (generate_sensor_data "office" 0 gMalfunction).temperature =
      round2 49 := by
    simp [generate_sensor_data, generate_with_profile, gMalfunction, gOk,
      inject_anomaly]
  have r49 : round2 (49 : ℚ) = 49 := by
    have h4900 : (100 * (49 : ℚ)) = ((4900 : ℤ) : ℚ) := by norm_num
    rw [round2, h4900, round_intCast]
    norm_num
  refine ⟨?_, ?_, ?_⟩
  · rw [e, r49]
  · norm_num [profileFor, officeProfile]
  · rw [e, r49]
    norm_num [profileFor, officeProfile]

/-- C9: for every location string other than the three configured keys, and
every timestamp and draw bundle, `generate_sensor_data` does not fail: it
generates the reading from the 'office' profile (the `.get` default of
line 41) while still labelling the result with the caller-supplied
location. -/
theorem c9_unknown_location (location : String) (timestamp : ℚ)
    (g : GenDraws) (h1 : location ≠ "office") (h2 : location ≠ "kitchen")
    (h3 : location ≠ "hallway") :
    (generate_sensor_data location timestamp g).location = location ∧
    generate_sensor_data location timestamp g =
      generate_with_profile officeProfile location timestamp g := by
  have hp : profileFor location = officeProfile := by
    unfold profileFor
    rw [if_neg h1, if_neg h2, if_neg h3]
  constructor
  · simp [generate_sensor_data, generate_with_profile]
  · rw [generate_sensor_data, hp]

/-- Witness for C9 at the unconfigured location "garage". -/
theorem c9_unknown_location_witness :
    ("garage" ≠ "office" ∧ "garage" ≠ "kitchen" ∧ "garage" ≠ "hallway") ∧
    ((generate_sensor_data "garage" 0 gOk).location = "garage" ∧
      generate_sensor_data "garage" 0 gOk =
        generate_with_profile officeProfile "garage" 0 gOk) :=
  ⟨⟨by decide, by decide, by decide⟩,
    c9_unknown_location "garage" 0 gOk (by decide) (by decide) (by decide)⟩

theorem length_filter_bool_split {α : Type} (p : α → Bool) (l : List α) :
    (l.filter p).length + (l.filter (fun a => !p a)).length = l.length := by
  induction l with
  | nil => rfl
  | cons a l ih =>
      cases h : p a <;> simp [List.filter_cons, h] <;> omega

theorem execute_task_accuracy (d : S1Dispatch) :
    (execute_task d).accuracy =
      if d.http = .ok 200 then calculate_accuracy d.task d.acc_noise else 0 := by
  rcases hd : d.http with s | _
  · rw [execute_task, hd]
    by_cases hs : s = 200
    · subst hs
      simp
    · simp [hs]
  · simp [execute_task, hd]

theorem s1_run_go (ds : List S1Dispatch) (r : S1Results) :
    ds.foldl s1_step r =
      ⟨r.tasks_completed + (ds.filter (fun d => d.resolved)).length,
       r.tasks_failed + (ds.filter (fun d => !d.resolved)).length,
       r.response_times ++
         (ds.filter (fun d => d.resolved)).map
           (fun d => (execute_task d).response_time),
       r.accuracy_scores ++
         (ds.filter (fun d => d.resolved)).map
           (fun d => (execute_task d).accuracy)⟩ := by
  induction ds generalizing r with
  | nil => simp
  | cons d ds ih =>
      rw [List.foldl_cons, ih]
      cases hd : d.resolved <;>
        simp [s1_step, hd, List.filter_cons] <;> omega

/-- C2 counterexample: a single dispatch whose HTTP call returned status 500
(and whose worker finished within the 30 s future timeout) does NOT
increment `tasks_failed`: `_execute_task` converts the non-200 status into a
returned zero-accuracy dict (scenario_1_normal.py lines 126-135), which the
run loop counts as a completed task (lines 76-79). -/
theorem c2_counterexample :
    (s1_run [d500]).tasks_failed = 0 ∧
    (s1_run [d500]).tasks_completed = 1 ∧
    (s1_run [d500]).accuracy_scores = [0] := by
  refine ⟨rfl, rfl, ?_⟩
  simp [s1_run, s1_step, d500, execute_task]

/-- C2 (amended): in the Normal scenario's dispatch loop, every dispatch
whose `future.result(timeout=30)` call returns — which includes every HTTP
timeout, network error and non-200 response, since `_execute_task` catches
those and returns a zero-accuracy outcome dict — increments
`tasks_completed` and appends its response time and accuracy (0 for the
failed HTTP calls); `tasks_failed` is incremented exactly for the dispatches
whose future does not resolve within 30 s; every dispatch is processed
(completed + failed = number of dispatches), so no single failed dispatch
aborts the scenario run. -/
theorem c2_dispatch_accounting (ds : List S1Dispatch) :
    (s1_run ds).tasks_completed = (ds.filter (fun d => d.resolved)).length ∧
    (s1_run ds).tasks_failed = (ds.filter (fun d => !d.resolved)).length ∧
    (s1_run ds).tasks_completed + (s1_run ds).tasks_failed = ds.length ∧
    (s1_run ds).response_times =
      (ds.filter (fun d => d.resolved)).map
        (fun d => (execute_task d).response_time) ∧
    (s1_run ds).accuracy_scores =
      (ds.filter (fun d => d.resolved)).map
        (fun d =>
          if d.http = .ok 200 then calculate_accuracy d.task d.acc_noise
          else 0) := by
  rw [s1_run, s1_run_go]
  refine ⟨by simp, by simp, ?_, by simp, ?_⟩
  · simpa using length_filter_bool_split (fun d => d.resolved) ds
  · simp [execute_task_accuracy]

/-- C3 (code bug evaluation): after a single failed execution recorded for
task type "analysis" at location "supervisor", the collector holds 1 attempt
and 1 error for key "supervisor_analysis" (so successes = 0, errors = 1),
yet `get_performance_summary` reports an error rate of 1/2 — because
line 148 of metrics_collector.py adds `error_count` to `task_counters[key]`,
which already counts every attempt — whereas errors/(successes + errors)
is 1/(0 + 1) = 1. -/
theorem c3_error_rate_eval :
    (get_performance_summary c3_state).error_rates =
      [("supervisor_analysis", 1 / 2)] ∧
    ¬ ((1 : ℚ) / 2 = 1 / (0 + 1)) := by
  have hkey : "supervisor" ++ "_" ++ "analysis" = "supervisor_analysis" := rfl
  have hstate : c3_state =
      ⟨[("supervisor_analysis", 1)], [], [("supervisor_analysis", 1)], [],
        [⟨"analysis", 1, false, "supervisor"⟩]⟩ := by
    rw [c3_state, record_task_execution]
    simp [freshCollector, updateD, hkey]
  rw [hstate]
  constructor
  · simp [get_performance_summary, lookupD, List.find?]
    norm_num
  · norm_num

/-- C7: `get_performance_summary` on a freshly constructed collector — no
recorded executions, no collected samples — returns the summary with empty
`task_summary`, `average_response_times`, `error_rates` and
`system_utilization` parts; the guards of lines 138, 149, 153 and 161 keep
every division behind a nonemptiness / positivity test, so nothing divides
by zero and nothing raises. -/
theorem c7_fresh_summary :
    get_performance_summary freshCollector = ⟨[], [], [], none, none⟩ := rfl

theorem historyAfter_drop (samples : List (ℚ × ℚ)) :
    historyAfter samples = samples.drop (samples.length - 1000) := by
  induction samples using List.reverseRecOn with
  | nil => rfl
  | append_singleton xs x ih =>
      rw [historyAfter, List.foldl_append, List.foldl_cons, List.foldl_nil]
      rw [show xs.foldl appendSample [] = historyAfter xs from rfl, ih]
      simp only [appendSample]
      by_cases hlen : xs.length < 1000
      · have h0 : xs.length - 1000 = 0 := by omega
        have h1 : (xs ++ [x]).length - 1000 = 0 := by
          simp only [List.length_append, List.length_singleton]
          omega
        rw [h0, h1, List.drop_zero, List.drop_zero]
        have hle : ¬ 1000 < (xs ++ [x]).length := by
          simp only [List.length_append, List.length_singleton]
          omega
        rw [if_neg hle]
      · push_neg at hlen
        have hdlen : (xs.drop (xs.length - 1000)).length = 1000 := by
          simp only [List.length_drop]
          omega
        have hgt : 1000 < (xs.drop (xs.length - 1000) ++ [x]).length := by
          simp only [List.length_append, List.length_singleton, hdlen]
          omega
        rw [if_pos hgt]
        have hk : (xs ++ [x]).length - 1000 = (xs.length - 1000) + 1 := by
          simp only [List.length_append, List.length_singleton]
          omega
        rw [hk]
        have hsplit : (xs ++ [x]).drop ((xs.length - 1000) + 1) =
            xs.drop ((xs.length - 1000) + 1) ++ [x] := by
          apply List.drop_append_of_le_length
          omega
        rw [hsplit, ← List.tail_drop]
        cases hd : xs.drop (xs.length - 1000) with
        | nil => rw [hd] at hdlen; simp at hdlen
        | cons y ys => simp

/-- C5: for every sequence of appended (timestamp, value) samples, the
per-key history series built by the sampler loop (append, then `popleft()`
when over 1000) holds at most 1000 entries, and its contents are exactly the
most recently appended samples in append order — the list with all but the
last 1000 dropped from the front, i.e. FIFO eviction of the oldest. -/
theorem c5_ring_buffer (samples : List (ℚ × ℚ)) :
    (historyAfter samples).length ≤ 1000 ∧
    historyAfter samples = samples.drop (samples.length - 1000) := by
  refine ⟨?_, historyAfter_drop samples⟩
  rw [historyAfter_drop samples, List.length_drop]
  omega

/-- C6: in the Failover scenario, when the remaining time after phase 2 is
at most 30 seconds, phase 3 is not run at all — `tasks_after_recovery` is 0,
`response_times_after` and `accuracy_after` are empty and `phase_2_duration`
stays 0; phase 3's results are recorded exactly when the remaining time
strictly exceeds 30 seconds (scenario_2_failover.py line 76). -/
theorem c6_phase3_skip (i : S2Env) :
    (i.remaining_time ≤ 30 →
      (failover_run i).tasks_after_recovery = 0 ∧
      (failover_run i).response_times_after = [] ∧
      (failover_run i).accuracy_after = [] ∧
      (failover_run i).phase_2_duration = 0) ∧
    (30 < i.remaining_time →
      (failover_run i).tasks_after_recovery = i.phase3.tasks_completed ∧
      (failover_run i).response_times_after = i.phase3.response_times ∧
      (failover_run i).accuracy_after = i.phase3.accuracy_scores ∧
      (failover_run i).phase_2_duration = i.remaining_time) := by
  constructor
  · intro h
    have hn : ¬ 30 < i.remaining_time := not_lt.mpr h
    simp [failover_run, hn]
  · intro h
    simp [failover_run, h]

/-- Witness for C6 at the environment `s2ex`, whose remaining time is
20 s ≤ 30 s. -/
theorem c6_phase3_skip_witness :
    s2ex.remaining_time ≤ 30 ∧
    ((failover_run s2ex).tasks_after_recovery = 0 ∧
     (failover_run s2ex).response_times_after = [] ∧
     (failover_run s2ex).accuracy_after = [] ∧
     (failover_run s2ex).phase_2_duration = 0) :=
  ⟨by norm_num [s2ex], (c6_phase3_skip s2ex).1 (by norm_num [s2ex])⟩

theorem run_load_phase_go (ds : List S3Dispatch) (r : PhaseResults) :
    ds.foldl s3_phase_step r =
      ⟨r.supervisor_tasks +
         (ds.filter (fun d => !decide (70 < d.cpu) && d.resolved)).length,
       r.rpi_tasks +
         (ds.filter (fun d => decide (70 < d.cpu) && d.resolved)).length,
       r.load_shedding_events +
         (ds.filter (fun d => decide (70 < d.cpu))).length,
       r.response_times ++
         (ds.filter (fun d => d.resolved)).map
           (fun d => (s3_outcome d).response_time),
       r.cpu_usage ++ ds.map (fun d => d.cpu),
       r.accuracy_scores ++
         (ds.filter (fun d => d.resolved)).map
           (fun d => (s3_outcome d).accuracy),
       r.offload_log ++ ds.map (fun d => decide (70 < d.cpu))⟩ := by
  induction ds generalizing r with
  | nil => simp
  | cons d ds ih =>
      rw [List.foldl_cons, ih]
      by_cases hc : 70 < d.cpu <;> cases hr : d.resolved <;>
        simp [s3_phase_step, s3_outcome, hc, hr, List.filter_cons] <;> omega

theorem tryEndpoints_find (resp : String → PeerResp) (rt acc : ℚ)
    (l : List (Option String)) :
    tryEndpoints resp rt acc l =
      if (l.find? (fun oe =>
            match oe with
            | some e => isOk200 (resp e)
            | none => false)).isSome
      then ⟨rt, acc, true, true⟩ else ⟨rt, 0, true, false⟩ := by
  induction l with
  | nil => rfl
  | cons oe rest ih =>
      rcases oe with _ | e
      · rw [tryEndpoints, ih]
        simp [List.find?]
      · rw [tryEndpoints]
        by_cases he : isOk200 (resp e)
        · simp [List.find?, he]
        · simp only [Bool.not_eq_true] at he
          rw [if_neg (by simp [he]), ih]
          simp [List.find?, he]

/-- C4: in every LoadBalance phase, (i) the branch taken per dispatch (the
ghost `offload_log`) is exactly "sampled CPU strictly exceeds 70", sampled
immediately before each dispatch; (ii) `load_shedding_events` equals the
number of above-threshold samples, i.e. it is incremented exactly once per
offloaded dispatch; (iii) an offloaded task is executed by trying endpoints
in the `endpoints_to_try` order until the first one answers 200 — returning
the success outcome then, and the all-unavailable failure outcome (no
further retry) when none does; (iv) `endpoints_to_try` is the task's
home-location peer first, then the remaining peers in the configured dict
iteration order. -/
theorem c4_load_shedding (ds : List S3Dispatch) :
    (run_load_phase ds).offload_log = ds.map (fun d => decide (70 < d.cpu)) ∧
    (run_load_phase ds).load_shedding_events =
      (ds.filter (fun d => decide (70 < d.cpu))).length ∧
    (∀ d : S3Dispatch, execute_on_rpi d =
      if ((endpointsToTry d.task_location).find? (fun oe =>
            match oe with
            | some e => isOk200 (d.peer e)
            | none => false)).isSome
      then ⟨d.rt_ms, d.rpi_acc, true, true⟩
      else ⟨d.rt_ms, 0, true, false⟩) ∧
    endpointsToTry "office" =
      [some "http://192.168.1.101:8000", some "http://192.168.1.102:8000",
        some "http://192.168.1.103:8000"] ∧
    endpointsToTry "kitchen" =
      [some "http://192.168.1.102:8000", some "http://192.168.1.101:8000",
        some "http://192.168.1.103:8000"] ∧
    endpointsToTry "hallway" =
      [some "http://192.168.1.103:8000", some "http://192.168.1.101:8000",
        some "http://192.168.1.102:8000"] := by
  refine ⟨?_, ?_, ?_, ?_, ?_, ?_⟩
  · rw [run_load_phase, run_load_phase_go]
    simp
  · rw [run_load_phase, run_load_phase_go]
    simp
  · intro d
    exact tryEndpoints_find d.peer d.rt_ms d.rpi_acc (endpointsToTry d.task_location)
  · simp [endpointsToTry, rpi_endpoints, List.find?, List.filter]
  · simp [endpointsToTry, rpi_endpoints, List.find?, List.filter]
  · simp [endpointsToTry, rpi_endpoints, List.find?, List.filter]

theorem length_filter_and_le {α : Type} (p q : α → Bool) (l : List α) :
    (l.filter (fun a => p a && q a)).length ≤ (l.filter p).length := by
  induction l with
  | nil => simp
  | cons a l ih =>
      by_cases hp : p a <;> by_cases hq : q a <;>
        simp [List.filter_cons, hp, hq] <;> omega

theorem run_load_phase_rpi_le (ds : List S3Dispatch) :
    (run_load_phase ds).rpi_tasks ≤ (run_load_phase ds).load_shedding_events := by
  rw [run_load_phase, run_load_phase_go]
  simpa using
    length_filter_and_le (fun d => decide (70 < d.cpu)) (fun d => d.resolved) ds

theorem s3_run_le_aux (phases : List (List S3Dispatch)) (t : S3Totals)
    (h : t.tasks_on_rpis ≤ t.load_shedding_events) :
    (phases.foldl s3_acc_step t).tasks_on_rpis ≤
      (phases.foldl s3_acc_step t).load_shedding_events := by
  induction phases generalizing t with
  | nil => exact h
  | cons ds phases ih =>
      rw [List.foldl_cons]
      exact ih _ (Nat.add_le_add h (run_load_phase_rpi_le ds))

/-- C10 (implicit): over any sequence of LoadBalance phases,
`tasks_on_rpis` never exceeds `load_shedding_events`: the shedding counter
is incremented at submission of every offloaded dispatch, while the RPi task
counter is incremented only for those offloaded dispatches whose future
result is also retrieved within the 30 s wait. -/
theorem c10_rpi_le_shedding (phases : List (List S3Dispatch)) :
    (s3_run phases).tasks_on_rpis ≤ (s3_run phases).load_shedding_events := by
  rw [s3_run]
  exact s3_run_le_aux phases ⟨0, 0, 0⟩ (Nat.le_refl 0)

theorem decNat_encNat (n : ℕ) : decNat (encNat n) = some n := by
  simp [decNat, encNat, Rat.den_natCast, Rat.num_natCast]

theorem decQ_encQ (q : ℚ) : decQ (encQ q) = some q := rfl

theorem decPairQ_encPairQ (p : ℚ × ℚ) : decPairQ (encPairQ p) = some p := rfl

theorem optMap_map {α β : Type} (f : α → Option β) (g : β → α) (l : List β)
    (h : ∀ b, f (g b) = some b) : optMap f (l.map g) = some l := by
  induction l with
  | nil => rfl
  | cons b bs ih => simp [optMap, h b, ih]

theorem decList_encList {α : Type} (dec : Json → Option α) (enc : α → Json)
    (h : ∀ a, dec (enc a) = some a) (l : List α) :
    decList dec (encList enc l) = some l := by
  simp only [encList, decList]
  exact optMap_map dec enc l h

theorem decObjWith_encObjWith {α : Type} (dec : Json → Option α)
    (enc : α → Json) (h : ∀ a, dec (enc a) = some a)
    (m : List (String × α)) :
    decObjWith dec (encObjWith enc m) = some m := by
  simp only [encObjWith, decObjWith]
  exact optMap_map _ _ m (fun p => by simp [h p.2])

theorem decRtStats_encRtStats (s : RtStats) :
    decRtStats (encRtStats s) = some s := by
  simp [encRtStats, decRtStats, decNat_encNat]

theorem decUtilStats_encUtilStats (s : UtilStats) :
    decUtilStats (encUtilStats s) = some s := rfl

theorem decUtil_encUtil (s : Summary) :
    decUtil (encUtil s) = some (s.util_cpu, s.util_memory) := by
  rcases hc : s.util_cpu with _ | u1 <;> rcases hm : s.util_memory with _ | u2 <;>
    simp [encUtil, decUtil, hc, hm, decUtilStats_encUtilStats]

theorem decSummary_encSummary (s : Summary) :
    decSummary (encSummary s) = some s := by
  simp [encSummary, decSummary, decUtil_encUtil,
    decObjWith_encObjWith decNat encNat decNat_encNat,
    decObjWith_encObjWith decRtStats encRtStats decRtStats_encRtStats,
    decObjWith_encObjWith decQ encQ decQ_encQ]

/-- C8: for every collector state, parsing the document written by
`export_metrics` recovers task counters, response-time lists and error
counts equal to the collector's current state, and the embedded
`performance_summary` equals exactly what a `get_performance_summary` call
made immediately before the export would return (the export body calls it on
the same, unmutated state — metrics_collector.py line 187). -/
theorem c8_export_roundtrip (export_timestamp : String)
    (st : MetricsCollector) :
    decodeExport (export_metrics export_timestamp st) =
      some ⟨st.task_counters, st.response_times, st.error_counts,
        get_performance_summary st⟩ := by
  simp [export_metrics, decodeExport, decSummary_encSummary,
    decObjWith_encObjWith decNat encNat decNat_encNat,
    decObjWith_encObjWith (decList decQ) (encList encQ)
      (decList_encList decQ encQ decQ_encQ)]

end MultiAgents
